import Mathlib

/-!
Shallow embedding of `src/suspension_engine.py` (MTB Evolution API).

The program has two engines:
* a baseline suspension calculator (`SuspensionCalculator.calculate_baseline`
  with the nested helper `get_component_settings` and `_get_dynamic_rebound`),
* a diagnostic resolver (`DiagnosticAssistant.diagnose_problem`).

Python machine details modelled explicitly:
* `int(x)` on a float truncates toward zero: modelled by `pyInt : ℚ → ℤ`.
* numbers from JSON are modelled as `ℚ` (multipliers, weights) and `ℤ` (clicks).
* a JSON dict with optional keys is modelled as a structure of `Option` fields
  (plus `extraKeys` standing for keys the program never reads, so that Python
  truthiness of the dict — `if not brand_data` — is representable).
* `dict.get(k, d)` is `Option.getD`, association lists model string-keyed dicts.
* `getattr(obj, name, False)` with Python truthiness is `getattrTruthy`.
* `list.sort(key=...)` is Python's stable sort: modelled by `List.mergeSort`,
  which is stable and sorts by the same comparison.
-/

namespace MTB

/-- Python `int(x)` applied to a rational: truncation toward zero. -/
def pyInt (q : ℚ) : ℤ := if 0 ≤ q then ⌊q⌋ else ⌈q⌉

/-! ## Data model (section `--- 1. MODELI ---` of the source) -/

/-- `terrain: Literal['flow', 'jumps', 'technical_roots', 'mix']`. -/
inductive Terrain
  | flow | jumps | technical_roots | mix
deriving DecidableEq, Repr

/-- `weather: Literal['dry', 'wet', 'mix']`. -/
inductive Weather
  | dry | wet | mix
deriving DecidableEq, Repr

/-- `RidingConditions` with defaults `terrain='mix'`, `weather='dry'`. -/
structure RidingConditions where
  terrain : Terrain := .mix
  weather : Weather := .dry
deriving DecidableEq, Repr

/-- `brand: Literal['rockshox', 'fox', 'marzocchi', 'ohlins', 'other']`. -/
inductive Brand
  | rockshox | fox | marzocchi | ohlins | other
deriving DecidableEq, Repr

/-- The literal string value a `Brand` stands for in the Python model. -/
def Brand.str : Brand → String
  | .rockshox => "rockshox"
  | .fox => "fox"
  | .marzocchi => "marzocchi"
  | .ohlins => "ohlins"
  | .other => "other"

/-- `SuspensionComponent` fields with the source's defaults.
`travel_mm` carries the raw value; the pydantic bound `gt=35, le=250` is the
separate predicate `SuspensionComponent.validTravel` checked at construction. -/
structure SuspensionComponent where
  brand : Brand
  travel_mm : ℤ
  has_air_spring : Bool := true
  has_rebound : Bool := true
  has_lsc : Bool := false
  has_hsc : Bool := false
  has_lsr : Bool := false
  has_hsr : Bool := false
  tokens_adjustable : Bool := true
  current_psi : Option ℤ := none
deriving DecidableEq, Repr

/-- pydantic `travel_mm: int = Field(..., gt=35, le=250)`. -/
def SuspensionComponent.validTravel (c : SuspensionComponent) : Prop :=
  35 < c.travel_mm ∧ c.travel_mm ≤ 250

instance (c : SuspensionComponent) : Decidable c.validTravel := by
  unfold SuspensionComponent.validTravel; infer_instance

/-- `bike_type: Literal['hardtail', 'full_suspension_xc',
'full_suspension_trail_enduro', 'downhill']`. -/
inductive BikeType
  | hardtail | full_suspension_xc | full_suspension_trail_enduro | downhill
deriving DecidableEq, Repr

/-- The literal string value of a `BikeType` (used as a sag-target key). -/
def BikeType.str : BikeType → String
  | .hardtail => "hardtail"
  | .full_suspension_xc => "full_suspension_xc"
  | .full_suspension_trail_enduro => "full_suspension_trail_enduro"
  | .downhill => "downhill"

/-- `RiderProfile` with `weight_kg: float = Field(..., gt=30, le=150)`. -/
structure RiderProfile where
  weight_kg : ℚ
  bike_type : BikeType
  skill_level : String := "intermediate"
deriving DecidableEq, Repr

/-- pydantic bound on `weight_kg`. -/
def RiderProfile.validWeight (r : RiderProfile) : Prop :=
  30 < r.weight_kg ∧ r.weight_kg ≤ 150

instance (r : RiderProfile) : Decidable r.validWeight := by
  unfold RiderProfile.validWeight; infer_instance

/-- `BikeSetup`: rider, conditions (defaulted), required fork, optional shock. -/
structure BikeSetup where
  rider : RiderProfile
  conditions : RidingConditions := {}
  fork : SuspensionComponent
  shock : Option SuspensionComponent := none
deriving DecidableEq, Repr

/-- Bound check for an optional shock: vacuously true when absent. -/
def shockTravelOk : Option SuspensionComponent → Bool
  | none => true
  | some s => decide s.validTravel

/-- pydantic construction of a `BikeSetup`: field bounds are checked in
declaration order (rider, then fork, then shock), then the `validate_shock`
field validator runs: a hardtail with a non-null shock raises `ValueError`.
Any failure yields `Except.error`; only a fully valid setup is produced. -/
def mkBikeSetup (rider : RiderProfile) (conditions : RidingConditions)
    (fork : SuspensionComponent) (shock : Option SuspensionComponent) :
    Except String BikeSetup :=
  if ¬ rider.validWeight then .error "weight_kg out of range" else
  if ¬ fork.validTravel then .error "fork travel_mm out of range" else
  if ¬ shockTravelOk shock then .error "shock travel_mm out of range" else
  if rider.bike_type = .hardtail ∧ shock.isSome then
    .error "Hardtail ne moze imati zadnji shock." else
  .ok { rider := rider, conditions := conditions, fork := fork, shock := shock }

/-! ## Reference data store (`manufacturer_specs.json`, loaded by
`SuspensionCalculator.__init__`; `{}` on load failure) -/

/-- One entry of a brand's `rebound_table`: `{max_kg, clicks}`. -/
structure ReboundEntry where
  max_kg : ℚ
  clicks : ℤ
deriving DecidableEq, Repr

/-- A brand's coefficient dict. Keys the program reads are optional fields
(`.get` with a default in the source); `extraKeys` stands for any other keys
present in the JSON dict, relevant only for the dict's Python truthiness. -/
structure BrandData where
  psi_multiplier : Option ℚ := none
  base_lsc : Option ℤ := none
  base_hsc : Option ℤ := none
  rebound_table : Option (List ReboundEntry) := none
  extraKeys : List String := []
deriving DecidableEq, Repr

/-- Python truthiness of the brand dict: `if not brand_data` is true exactly
when the dict is empty. -/
def BrandData.isEmptyDict (b : BrandData) : Bool :=
  b.psi_multiplier.isNone && b.base_lsc.isNone && b.base_hsc.isNone &&
    b.rebound_table.isNone && b.extraKeys.isEmpty

/-- The loaded `manufacturer_specs.json`: sections `forks`, `shocks`
(string-keyed dicts of brand dicts) and `sag_targets`
(bike-type key → component-type key → fraction). A missing or unparsable
file loads as `{}`, i.e. all sections empty. -/
structure Specs where
  forks : List (String × BrandData) := []
  shocks : List (String × BrandData) := []
  sag_targets : List (String × List (String × ℚ)) := []
deriving Repr

/-- Component type: the `comp_type` string `'fork'` / `'shock'`. -/
inductive CompType
  | fork | shock
deriving DecidableEq, Repr

/-- The `comp_type` string. -/
def CompType.str : CompType → String
  | .fork => "fork"
  | .shock => "shock"

/-- `self.specs.get(comp_type + 's', {})`. -/
def specsSection (specs : Specs) : CompType → List (String × BrandData)
  | .fork => specs.forks
  | .shock => specs.shocks

/-- `fallback_key = 'rockshox' if comp_type == 'fork' else 'standard_air'`. -/
def fallbackKey : CompType → String
  | .fork => "rockshox"
  | .shock => "standard_air"

/-- Lines 96-99: `brand_data = specs_section.get(comp.brand, {})`; if that
dict is falsy, `brand_data = specs_section.get(fallback_key, {})`. -/
def resolvedBrandData (specs : Specs) (ct : CompType) (brand : Brand) :
    BrandData :=
  let sec := specsSection specs ct
  let bd := (List.lookup brand.str sec).getD {}
  if bd.isEmptyDict then (List.lookup (fallbackKey ct) sec).getD {} else bd

/-! ## Modifier tables (lines 77-89) -/

/-- One terrain/weather modifier dict. The program reads `lsc`, `hsc`,
`rebound`, `psi_pct` via `.get` with defaults (so they are optional here;
e.g. only `jumps` carries `hsc`), and `tip` by direct indexing. -/
structure Mod where
  lsc : Option ℤ := none
  hsc : Option ℤ := none
  rebound : Option ℤ := none
  psi_pct : Option ℚ := none
  tip : String := ""
deriving DecidableEq, Repr

/-- `modifiers["terrain"]`. -/
def terrainMod : Terrain → Mod
  | .flow => { lsc := some 1, rebound := some 0, psi_pct := some 1,
               tip := "Flow staza trazi podrsku." }
  | .jumps => { lsc := some 2, hsc := some 1, rebound := some 1,
                psi_pct := some 1.05,
                tip := "Skokovi traze stabilnost i sporiji rebound." }
  | .technical_roots => { lsc := some (-1), rebound := some (-1),
                          psi_pct := some 0.98,
                          tip := "Korijenje trazi mekocu i brz rebound." }
  | .mix => { lsc := some 0, rebound := some 0, psi_pct := some 1,
              tip := "Balansirano." }

/-- `modifiers["weather"]`. -/
def weatherMod : Weather → Mod
  | .dry => { lsc := some 0, rebound := some 0, psi_pct := some 1, tip := "" }
  | .wet => { lsc := some (-2), rebound := some (-1), psi_pct := some 0.95,
              tip := "Mokro je! Meksa kompresija za grip." }
  | .mix => { lsc := some (-1), rebound := some 0, psi_pct := some 0.98,
              tip := "Promjenjivo." }

/-! ## Baseline calculator (`SuspensionCalculator`) -/

/-- The `for entry in table` loop of `_get_dynamic_rebound`: the first entry
with `weight <= entry['max_kg']` yields its clicks. -/
def reboundLoop (weight : ℚ) : List ReboundEntry → Option ℤ
  | [] => none
  | e :: rest => if weight ≤ e.max_kg then some e.clicks else reboundLoop weight rest

/-- `_get_dynamic_rebound`: empty (or absent) table → 6; otherwise the loop's
result, falling back to `table[-1]['clicks']`. -/
def getDynamicRebound (d : BrandData) (weight : ℚ) : ℤ :=
  let table := d.rebound_table.getD []
  if table.isEmpty then 6
  else
    match reboundLoop weight table with
    | some c => c
    | none =>
      match table.getLast? with
      | some e => e.clicks
      | none => 6

/-- Line 101: `psi_mult = brand_data.get('psi_multiplier', 1.0)`. -/
def psiMultOf (bd : BrandData) : ℚ := bd.psi_multiplier.getD 1

/-- Line 109: `base_lsc = brand_data.get('base_lsc', 2)`. -/
def baseLscOf (bd : BrandData) : ℤ := bd.base_lsc.getD 2

/-- Line 110: `base_hsc = brand_data.get('base_hsc', 1)`. -/
def baseHscOf (bd : BrandData) : ℤ := bd.base_hsc.getD 1

/-- `t_mod.get('psi_pct', 1.0)` / `w_mod.get('psi_pct', 1.0)`. -/
def psiPctOf (m : Mod) : ℚ := m.psi_pct.getD 1

/-- Line 102: `base_psi = int(rider_weight * psi_mult)`. -/
def basePsi (bd : BrandData) (riderWeight : ℚ) : ℤ :=
  pyInt (riderWeight * psiMultOf bd)

/-- Line 103: `final_psi = int(base_psi * t_mod.get('psi_pct', 1.0) *
w_mod.get('psi_pct', 1.0))`. -/
def finalPsi (bd : BrandData) (riderWeight : ℚ) (tMod wMod : Mod) : ℤ :=
  pyInt ((basePsi bd riderWeight : ℚ) * psiPctOf tMod * psiPctOf wMod)

/-- Line 112: `final_rebound = max(0, base_rebound + t_mod.get('rebound', 0)
+ w_mod.get('rebound', 0))`. -/
def finalRebound (bd : BrandData) (riderWeight : ℚ) (tMod wMod : Mod) : ℤ :=
  max 0 (getDynamicRebound bd riderWeight + tMod.rebound.getD 0 + wMod.rebound.getD 0)

/-- Line 116: `final_lsc = max(0, base_lsc + t_mod.get('lsc', 0) +
w_mod.get('lsc', 0))`. -/
def finalLsc (bd : BrandData) (tMod wMod : Mod) : ℤ :=
  max 0 (baseLscOf bd + tMod.lsc.getD 0 + wMod.lsc.getD 0)

/-- Line 117: `final_hsc = max(0, base_hsc + t_mod.get('hsc', 0) +
w_mod.get('hsc', 0))`. -/
def finalHsc (bd : BrandData) (tMod wMod : Mod) : ℤ :=
  max 0 (baseHscOf bd + tMod.hsc.getD 0 + wMod.hsc.getD 0)

/-- `self.specs.get('sag_targets', {}).get(bike_type, {}).get(comp_type, 0.25)`. -/
def sagPctOf (specs : Specs) (bikeType : BikeType) (ct : CompType) : ℚ :=
  (((List.lookup bikeType.str specs.sag_targets).getD []).lookup ct.str).getD 0.25

/-- One recommendation returned per component (lines 126-132). -/
structure Recommendation where
  psi : ℤ
  sag_mm : ℤ
  sag_pct : ℤ
  clicks : List (String × ℤ)
  smart_tip : String
deriving DecidableEq, Repr

/-- Lines 119-124: build the `clicks` dict, one key per enabled capability. -/
def buildClicks (comp : SuspensionComponent) (rebound lsr hsr lsc hsc : ℤ) :
    List (String × ℤ) :=
  (if comp.has_rebound then [("rebound", rebound)] else []) ++
  (if comp.has_lsr then [("lsr", lsr)] else []) ++
  (if comp.has_hsr then [("hsr", hsr)] else []) ++
  (if comp.has_lsc then [("lsc", lsc)] else []) ++
  (if comp.has_hsc then [("hsc", hsc)] else [])

/-- The nested `get_component_settings(comp, comp_type)` (lines 94-132). -/
def getComponentSettings (specs : Specs) (riderWeight : ℚ) (bikeType : BikeType)
    (tMod wMod : Mod) (comp : SuspensionComponent) (ct : CompType) :
    Recommendation :=
  let brandData := resolvedBrandData specs ct comp.brand
  let psi := finalPsi brandData riderWeight tMod wMod
  let sagPct := sagPctOf specs bikeType ct
  let sagMm := pyInt ((comp.travel_mm : ℚ) * sagPct)
  let fRebound := finalRebound brandData riderWeight tMod wMod
  let fLsr := fRebound
  let fHsr := max 0 (fRebound + 1)
  let fLsc := finalLsc brandData tMod wMod
  let fHsc := finalHsc brandData tMod wMod
  { psi := psi
    sag_mm := sagMm
    sag_pct := pyInt (sagPct * 100)
    clicks := buildClicks comp fRebound fLsr fHsr fLsc fHsc
    smart_tip := (tMod.tip ++ " " ++ wMod.tip).trim }

/-- The full result of `calculate_baseline`: a `fork` recommendation always,
a `shock` one iff the setup has a shock. -/
structure Recommendations where
  fork : Recommendation
  shock : Option Recommendation
deriving DecidableEq, Repr

/-- `SuspensionCalculator.calculate_baseline` (lines 71-138), with the loaded
specs passed explicitly (the constructor's file loading is out of scope;
a missing file is the default `Specs`, i.e. `{}`). -/
def calculate_baseline (specs : Specs) (setup : BikeSetup) : Recommendations :=
  let tMod := terrainMod setup.conditions.terrain
  let wMod := weatherMod setup.conditions.weather
  { fork := getComponentSettings specs setup.rider.weight_kg setup.rider.bike_type
      tMod wMod setup.fork .fork
    shock := setup.shock.map fun s =>
      getComponentSettings specs setup.rider.weight_kg setup.rider.bike_type
        tMod wMod s .shock }

/-! ## Diagnostic resolver (`DiagnosticAssistant`, lines 141-170) -/

/-- One entry of a symptom's `solutions` list: the keys the resolver reads
(`logic_check`, `priority`) plus `fix`, standing for the remaining free-form
fix fields carried through unchanged. -/
structure Solution where
  logic_check : String
  priority : ℤ
  fix : String := ""
deriving DecidableEq, Repr

/-- One record of `suspension_logic.json`. -/
structure Symptom where
  symptom_id : String
  symptom_name : String
  required_component : String
  solutions : List Solution
deriving DecidableEq, Repr

/-- The four shapes of dict `diagnose_problem` returns:
`{"error": "Nepoznat simptom."}`, `{"error": "Komponenta ne postoji na
biciklu."}`, `{"result": "Nema rjesenja, posjeti servis."}`, and the success
dict with `symptom`, `primary_fix`, `secondary_fix`. -/
inductive DiagnoseResult
  | unknownSymptom
  | componentMissing
  | noSolution
  | diagnosis (symptom : String) (primary : Solution) (secondary : Option Solution)
deriving DecidableEq, Repr

/-- Python truthiness of `getattr(actual_comp, name, False)` for a
`SuspensionComponent`: each attribute of the class by its name, with Python
truthiness (a string is truthy iff nonempty, an int iff nonzero, `None` is
falsy, a bool is itself); any other name hits the `getattr` default `False`. -/
def getattrTruthy (comp : SuspensionComponent) (name : String) : Bool :=
  if name = "brand" then comp.brand.str ≠ ""
  else if name = "travel_mm" then comp.travel_mm ≠ 0
  else if name = "has_air_spring" then comp.has_air_spring
  else if name = "has_rebound" then comp.has_rebound
  else if name = "has_lsc" then comp.has_lsc
  else if name = "has_hsc" then comp.has_hsc
  else if name = "has_lsr" then comp.has_lsr
  else if name = "has_hsr" then comp.has_hsr
  else if name = "tokens_adjustable" then comp.tokens_adjustable
  else if name = "current_psi" then
    match comp.current_psi with
    | none => false
    | some n => n ≠ 0
  else false

/-- Line 160: a solution applies when `check == "always_true"` or
`getattr(actual_comp, check, False)` is truthy. -/
def solutionApplies (comp : SuspensionComponent) (s : Solution) : Bool :=
  s.logic_check = "always_true" || getattrTruthy comp s.logic_check

/-- The comparison `list.sort(key=lambda x: x['priority'])` sorts by:
a total preorder on solutions. -/
def lePriority (a b : Solution) : Prop := a.priority ≤ b.priority

instance : DecidableRel lePriority := fun a b => Int.decLe a.priority b.priority

instance : IsTotal Solution lePriority :=
  ⟨fun a b => le_total a.priority b.priority⟩

instance : IsTrans Solution lePriority :=
  ⟨fun _ _ _ hab hbc => le_trans hab hbc⟩

/-- `DiagnosticAssistant.diagnose_problem` (lines 149-170), with the loaded
rule list passed explicitly (the constructor's file loading is out of scope;
a missing file is `[]`). Python's `list.sort(key=...)` is a stable sort by
the key; it is modelled by the stable `List.insertionSort lePriority`, which
produces the identical list (all stable sorts by one total preorder agree). -/
def diagnose_problem (db : List Symptom) (setup : BikeSetup)
    (symptomId : String) : DiagnoseResult :=
  match db.find? (fun item => item.symptom_id = symptomId) with
  | none => .unknownSymptom
  | some problem =>
    let actualComp : Option SuspensionComponent :=
      if problem.required_component = "fork" then some setup.fork else setup.shock
    match actualComp with
    | none => .componentMissing
    | some comp =>
      let validSolutions := problem.solutions.filter (solutionApplies comp)
      let sorted := List.insertionSort lePriority validSolutions
      match sorted with
      | [] => .noSolution
      | p :: rest => .diagnosis problem.symptom_name p rest.head?

/-! ## Spec-described filter (for comparison with the source's filter) -/

/-- Modelled from the spec: the value of the *boolean capability flag* named
`name` on a component (`has_air_spring`, `has_rebound`, `has_lsc`, `has_hsc`,
`has_lsr`, `has_hsr`, `tokens_adjustable` per the spec's data model), `none`
when `name` is not a capability flag. -/
def capabilityFlagValue (comp : SuspensionComponent) (name : String) :
    Option Bool :=
  if name = "has_air_spring" then some comp.has_air_spring
  else if name = "has_rebound" then some comp.has_rebound
  else if name = "has_lsc" then some comp.has_lsc
  else if name = "has_hsc" then some comp.has_hsc
  else if name = "has_lsr" then some comp.has_lsr
  else if name = "has_hsr" then some comp.has_hsr
  else if name = "tokens_adjustable" then some comp.tokens_adjustable
  else none

/-- Modelled from the spec: "a solution applies if its `logic_check` is the
sentinel `always_true`, OR the named boolean capability flag is present and
true on the resolved component; unknown/missing flag names are false". -/
def solutionAppliesClaimed (comp : SuspensionComponent) (s : Solution) : Bool :=
  s.logic_check = "always_true" ||
    (capabilityFlagValue comp s.logic_check).getD false

/-- Modelled from the spec: `diagnose_problem` as the claim describes it,
identical to the source except that the filter keeps only solutions admitted
by `solutionAppliesClaimed`. -/
def diagnose_problem_claimed (db : List Symptom) (setup : BikeSetup)
    (symptomId : String) : DiagnoseResult :=
  match db.find? (fun item => item.symptom_id = symptomId) with
  | none => .unknownSymptom
  | some problem =>
    let actualComp : Option SuspensionComponent :=
      if problem.required_component = "fork" then some setup.fork else setup.shock
    match actualComp with
    | none => .componentMissing
    | some comp =>
      let validSolutions := problem.solutions.filter (solutionAppliesClaimed comp)
      let sorted := List.insertionSort lePriority validSolutions
      match sorted with
      | [] => .noSolution
      | p :: rest => .diagnosis problem.symptom_name p rest.head?

/-! ## Sample concrete inputs (used to witness the theorems) -/

/-- A fork with valid travel and LSC, LSR and HSR adjusters. -/
def exFork : SuspensionComponent :=
  { brand := .rockshox, travel_mm := 160, has_lsc := true, has_lsr := true,
    has_hsr := true }

/-- A shock with valid travel, an LSC adjuster and a set pressure. -/
def exShock : SuspensionComponent :=
  { brand := .fox, travel_mm := 60, has_lsc := true, current_psi := some 180 }

/-- A full-suspension rider. -/
def exRider : RiderProfile :=
  { weight_kg := 75, bike_type := .full_suspension_trail_enduro }

/-- A hardtail rider. -/
def exRiderHT : RiderProfile := { weight_kg := 75, bike_type := .hardtail }

/-- Jumps in the dry. -/
def exConditions : RidingConditions := { terrain := .jumps, weather := .dry }

/-- A valid full-suspension setup. -/
def exSetupFS : BikeSetup :=
  { rider := exRider, conditions := exConditions, fork := exFork,
    shock := some exShock }

/-- A valid hardtail setup (no shock). -/
def exSetupHT : BikeSetup := { rider := exRiderHT, fork := exFork }

/-- A small reference store knowing only rockshox forks. -/
def exSpecs : Specs :=
  { forks := [("rockshox",
      { psi_multiplier := some 1, base_lsc := some 2,
        rebound_table := some [⟨80, 7⟩] })] }

/-- Three always-applicable solutions with priorities [3, 1, 2]. -/
def exSolutions312 : List Solution :=
  [⟨"always_true", 3, "a"⟩, ⟨"always_true", 1, "b"⟩, ⟨"always_true", 2, "c"⟩]

/-- A small diagnostic rule list. -/
def exDb : List Symptom :=
  [⟨"s1", "Fork dive", "fork", exSolutions312⟩,
   ⟨"s2", "Shock harsh", "shock", exSolutions312⟩,
   ⟨"s3", "Brand check", "fork", [⟨"brand", 5, "x"⟩]⟩]

/-! ## Helper lemmas -/

theorem pyInt_nonneg {q : ℚ} (h : 0 ≤ q) : 0 ≤ pyInt q := by
  simp only [pyInt, if_pos h]
  exact Int.floor_nonneg.mpr h

theorem pyInt_mono {a b : ℚ} (ha : 0 ≤ a) (hab : a ≤ b) : pyInt a ≤ pyInt b := by
  have hb : 0 ≤ b := le_trans ha hab
  simp only [pyInt, if_pos ha, if_pos hb]
  exact Int.floor_le_floor hab

theorem psiPct_terrain_nonneg (t : Terrain) : 0 ≤ psiPctOf (terrainMod t) := by
  cases t <;> norm_num [psiPctOf, terrainMod]

theorem psiPct_weather_nonneg (w : Weather) : 0 ≤ psiPctOf (weatherMod w) := by
  cases w <;> norm_num [psiPctOf, weatherMod]

theorem reboundLoop_eq_find (w : ℚ) (l : List ReboundEntry) :
    reboundLoop w l =
      (l.find? (fun e => decide (w ≤ e.max_kg))).map ReboundEntry.clicks := by
  induction l with
  | nil => rfl
  | cons e rest ih =>
    by_cases h : w ≤ e.max_kg
    · simp [reboundLoop, List.find?_cons_of_pos, h]
    · simp [reboundLoop, List.find?_cons_of_neg, h, ih]

/-! ## Claim theorems -/

/-- Claim C1: for every setup, the psi of each present component's
recommendation is the rider weight times the resolved brand psi multiplier,
truncated toward zero, then times the terrain and weather percentage
multipliers (multiplicatively), truncated toward zero again. -/
theorem psi_truncation_formula (specs : Specs) (setup : BikeSetup) :
    ((calculate_baseline specs setup).fork.psi =
      pyInt ((pyInt (setup.rider.weight_kg *
          psiMultOf (resolvedBrandData specs .fork setup.fork.brand)) : ℚ) *
        psiPctOf (terrainMod setup.conditions.terrain) *
        psiPctOf (weatherMod setup.conditions.weather))) ∧
    ∀ s, setup.shock = some s →
      ∃ rec, (calculate_baseline specs setup).shock = some rec ∧
        rec.psi =
          pyInt ((pyInt (setup.rider.weight_kg *
              psiMultOf (resolvedBrandData specs .shock s.brand)) : ℚ) *
            psiPctOf (terrainMod setup.conditions.terrain) *
            psiPctOf (weatherMod setup.conditions.weather)) := by
  constructor
  · rfl
  · intro s hs
    refine ⟨getComponentSettings specs setup.rider.weight_kg setup.rider.bike_type
      (terrainMod setup.conditions.terrain) (weatherMod setup.conditions.weather)
      s .shock, ?_, rfl⟩
    simp [calculate_baseline, hs]

/-- Witness for C1 at a concrete setup carrying a shock. -/
theorem psi_truncation_formula_witness :
    ∃ rec, (calculate_baseline exSpecs exSetupFS).shock = some rec ∧
      rec.psi =
        pyInt ((pyInt (exSetupFS.rider.weight_kg *
            psiMultOf (resolvedBrandData exSpecs .shock exShock.brand)) : ℚ) *
          psiPctOf (terrainMod exSetupFS.conditions.terrain) *
          psiPctOf (weatherMod exSetupFS.conditions.weather)) :=
  (psi_truncation_formula exSpecs exSetupFS).2 exShock rfl

/-- Claim C4: `_get_dynamic_rebound` returns the clicks of the first table
entry whose `max_kg` is at least the rider weight; if no entry qualifies
(the weight exceeds every band) it returns the last entry's clicks; an empty
or absent table yields the default 6. The "no entry qualifies" case is
exactly `find? = none`. -/
theorem dynamic_rebound_banded (d : BrandData) (w : ℚ) :
    (d.rebound_table.getD [] = [] → getDynamicRebound d w = 6) ∧
    (∀ e, (d.rebound_table.getD []).find? (fun x => decide (w ≤ x.max_kg)) =
        some e → getDynamicRebound d w = e.clicks) ∧
    ((∀ e ∈ d.rebound_table.getD [], e.max_kg < w) ↔
      (d.rebound_table.getD []).find? (fun x => decide (w ≤ x.max_kg)) = none) ∧
    ((d.rebound_table.getD []).find? (fun x => decide (w ≤ x.max_kg)) = none →
      ∀ e, (d.rebound_table.getD []).getLast? = some e →
        getDynamicRebound d w = e.clicks) := by
  refine ⟨?_, ?_, ?_, ?_⟩
  · intro h
    simp [getDynamicRebound, h]
  · intro e he
    have hne : d.rebound_table.getD [] ≠ [] := by
      intro h
      rw [h] at he
      simp at he
    simp [getDynamicRebound, List.isEmpty_eq_false_iff_exists_mem,
      reboundLoop_eq_find, he, List.isEmpty_iff, hne]
  · rw [List.find?_eq_none]
    constructor
    · intro h e he
      simpa using not_le.mpr (h e he)
    · intro h e he
      have := h e he
      simpa [not_le] using this
  · intro hn e hl
    have hne : d.rebound_table.getD [] ≠ [] := by
      intro h
      rw [h] at hl
      simp at hl
    simp [getDynamicRebound, reboundLoop_eq_find, hn, hl, List.isEmpty_iff, hne]

/-- Witness for C4 at a concrete two-band table and weights hitting the
first-band, overflow and empty cases. -/
theorem dynamic_rebound_banded_witness :
    getDynamicRebound { rebound_table := some [⟨80, 7⟩, ⟨100, 9⟩] } 75 = 7 ∧
    getDynamicRebound { rebound_table := some [⟨80, 7⟩, ⟨100, 9⟩] } 120 = 9 ∧
    getDynamicRebound { rebound_table := some [] } 75 = 6 := by
  refine ⟨?_, ?_, ?_⟩
  · exact (dynamic_rebound_banded { rebound_table := some [⟨80, 7⟩, ⟨100, 9⟩] }
      75).2.1 ⟨80, 7⟩ (by decide)
  · exact (dynamic_rebound_banded { rebound_table := some [⟨80, 7⟩, ⟨100, 9⟩] }
      120).2.2.2 (by decide) ⟨100, 9⟩ (by decide)
  · exact (dynamic_rebound_banded { rebound_table := some [] } 75).1 (by decide)

/-- Claim C7: constructing a `BikeSetup` whose rider is a hardtail and whose
shock is non-null always fails validation with an error; no setup value is
ever produced from such input. -/
theorem hardtail_shock_always_rejected (r : RiderProfile) (c : RidingConditions)
    (f sh : SuspensionComponent) (hbt : r.bike_type = .hardtail) :
    (∃ msg, mkBikeSetup r c f (some sh) = .error msg) ∧
    ∀ b : BikeSetup, mkBikeSetup r c f (some sh) ≠ .ok b := by
  have herr : ∃ msg, mkBikeSetup r c f (some sh) = .error msg := by
    unfold mkBikeSetup
    by_cases h1 : ¬ r.validWeight
    · rw [if_pos h1]
      exact ⟨_, rfl⟩
    · rw [if_neg h1]
      by_cases h2 : ¬ f.validTravel
      · rw [if_pos h2]
        exact ⟨_, rfl⟩
      · rw [if_neg h2]
        by_cases h3 : ¬ shockTravelOk (some sh)
        · rw [if_pos h3]
          exact ⟨_, rfl⟩
        · rw [if_neg h3, if_pos ⟨hbt, rfl⟩]
          exact ⟨_, rfl⟩
  obtain ⟨msg, hmsg⟩ := herr
  refine ⟨⟨msg, hmsg⟩, ?_⟩
  intro b hb
  rw [hmsg] at hb
  cases hb

/-- Witness for C7: a concrete hardtail rider with a concrete shock. -/
theorem hardtail_shock_always_rejected_witness :
    (∃ msg, mkBikeSetup exRiderHT {} exFork (some exShock) = .error msg) ∧
    ∀ b : BikeSetup, mkBikeSetup exRiderHT {} exFork (some exShock) ≠ .ok b :=
  hardtail_shock_always_rejected exRiderHT {} exFork exShock rfl

/-- Claim C8: when the symptom exists but requires a shock and the setup has
none, `diagnose_problem` returns the structured component-missing outcome and
never a fix. (The embedding is a total function, so no exception can occur.) -/
theorem missing_component_reported (db : List Symptom) (setup : BikeSetup)
    (sid : String) (problem : Symptom)
    (hfind : db.find? (fun item => item.symptom_id = sid) = some problem)
    (hreq : problem.required_component = "shock")
    (hns : setup.shock = none) :
    diagnose_problem db setup sid = .componentMissing ∧
    ∀ name p s, diagnose_problem db setup sid ≠ .diagnosis name p s := by
  have h : diagnose_problem db setup sid = .componentMissing := by
    unfold diagnose_problem
    simp [hfind, hreq, hns]
  refine ⟨h, ?_⟩
  intro name p s hc
  rw [h] at hc
  cases hc

/-- Witness for C8: diagnosing the shock symptom `s2` on a hardtail. -/
theorem missing_component_reported_witness :
    diagnose_problem exDb exSetupHT "s2" = .componentMissing ∧
    ∀ name p s, diagnose_problem exDb exSetupHT "s2" ≠ .diagnosis name p s :=
  missing_component_reported exDb exSetupHT "s2"
    ⟨"s2", "Shock harsh", "shock", exSolutions312⟩ (by decide) rfl rfl

/-- Claim C9: when a component's brand and its type-specific fallback key are
both absent from the reference store, the resolved coefficients are the empty
dict, so every consumer falls back to the built-in defaults: psi multiplier 1,
base_lsc 2, base_hsc 1, base rebound 6 — and each final quantity is computed
from those defaults. (The embedding is total, so nothing can raise.) -/
theorem absent_brand_defaults (specs : Specs) (ct : CompType) (b : Brand)
    (w : ℚ)
    (hb : List.lookup b.str (specsSection specs ct) = none)
    (hf : List.lookup (fallbackKey ct) (specsSection specs ct) = none) :
    resolvedBrandData specs ct b = {} ∧
    psiMultOf (resolvedBrandData specs ct b) = 1 ∧
    baseLscOf (resolvedBrandData specs ct b) = 2 ∧
    baseHscOf (resolvedBrandData specs ct b) = 1 ∧
    getDynamicRebound (resolvedBrandData specs ct b) w = 6 ∧
    ∀ tm wm : Mod,
      finalPsi (resolvedBrandData specs ct b) w tm wm =
        pyInt ((pyInt w : ℚ) * psiPctOf tm * psiPctOf wm) ∧
      finalRebound (resolvedBrandData specs ct b) w tm wm =
        max 0 (6 + tm.rebound.getD 0 + wm.rebound.getD 0) ∧
      finalLsc (resolvedBrandData specs ct b) tm wm =
        max 0 (2 + tm.lsc.getD 0 + wm.lsc.getD 0) ∧
      finalHsc (resolvedBrandData specs ct b) tm wm =
        max 0 (1 + tm.hsc.getD 0 + wm.hsc.getD 0) := by
  have hr : resolvedBrandData specs ct b = {} := by
    simp [resolvedBrandData, hb, hf, BrandData.isEmptyDict]
  rw [hr]
  refine ⟨rfl, rfl, rfl, rfl, rfl, ?_⟩
  intro tm wm
  refine ⟨?_, rfl, rfl, rfl⟩
  simp [finalPsi, basePsi, psiMultOf, mul_one]

/-- Witness for C9: the empty reference store (a missing or unparsable specs
file) on a concrete brand and weight. -/
theorem absent_brand_defaults_witness :
    resolvedBrandData {} .fork .fox = {} ∧
    psiMultOf (resolvedBrandData {} .fork .fox) = 1 ∧
    baseLscOf (resolvedBrandData {} .fork .fox) = 2 ∧
    baseHscOf (resolvedBrandData {} .fork .fox) = 1 ∧
    getDynamicRebound (resolvedBrandData {} .fork .fox) 75 = 6 ∧
    ∀ tm wm : Mod,
      finalPsi (resolvedBrandData {} .fork .fox) 75 tm wm =
        pyInt ((pyInt 75 : ℚ) * psiPctOf tm * psiPctOf wm) ∧
      finalRebound (resolvedBrandData {} .fork .fox) 75 tm wm =
        max 0 (6 + tm.rebound.getD 0 + wm.rebound.getD 0) ∧
      finalLsc (resolvedBrandData {} .fork .fox) tm wm =
        max 0 (2 + tm.lsc.getD 0 + wm.lsc.getD 0) ∧
      finalHsc (resolvedBrandData {} .fork .fox) tm wm =
        max 0 (1 + tm.hsc.getD 0 + wm.hsc.getD 0) :=
  absent_brand_defaults {} .fork .fox 75 rfl rfl

theorem finalPsi_nonneg_mono (bd : BrandData) (tm wm : Mod) {w1 w2 : ℚ}
    (hm : 0 ≤ psiMultOf bd) (ht : 0 ≤ psiPctOf tm) (hw : 0 ≤ psiPctOf wm)
    (h0 : 0 ≤ w1) (h12 : w1 ≤ w2) :
    0 ≤ finalPsi bd w1 tm wm ∧ finalPsi bd w1 tm wm ≤ finalPsi bd w2 tm wm := by
  have hb1 : (0 : ℤ) ≤ basePsi bd w1 := pyInt_nonneg (mul_nonneg h0 hm)
  have hb2 : basePsi bd w1 ≤ basePsi bd w2 :=
    pyInt_mono (mul_nonneg h0 hm) (mul_le_mul_of_nonneg_right h12 hm)
  have hc1 : (0 : ℚ) ≤ (basePsi bd w1 : ℚ) := by exact_mod_cast hb1
  have hc2 : (basePsi bd w1 : ℚ) ≤ (basePsi bd w2 : ℚ) := by exact_mod_cast hb2
  have hq1 : (0 : ℚ) ≤ (basePsi bd w1 : ℚ) * psiPctOf tm * psiPctOf wm :=
    mul_nonneg (mul_nonneg hc1 ht) hw
  refine ⟨pyInt_nonneg hq1, pyInt_mono hq1 ?_⟩
  exact mul_le_mul_of_nonneg_right (mul_le_mul_of_nonneg_right hc2 ht) hw

/-- Claim C5: with brand, terrain, weather and the reference store fixed (and
the resolved psi multiplier non-negative, as in any real store), the psi of
each present component is non-negative and monotonically non-decreasing in
the rider weight over the valid range. -/
theorem psi_nonneg_monotone (specs : Specs) (bt : BikeType) (sk : String)
    (cond : RidingConditions) (fork : SuspensionComponent)
    (shock : Option SuspensionComponent) (w1 w2 : ℚ)
    (hm : 0 ≤ psiMultOf (resolvedBrandData specs .fork fork.brand))
    (h1 : 30 < w1) (h12 : w1 ≤ w2) (_h2 : w2 ≤ 150) :
    (0 ≤ (calculate_baseline specs ⟨⟨w1, bt, sk⟩, cond, fork, shock⟩).fork.psi ∧
      (calculate_baseline specs ⟨⟨w1, bt, sk⟩, cond, fork, shock⟩).fork.psi ≤
        (calculate_baseline specs ⟨⟨w2, bt, sk⟩, cond, fork, shock⟩).fork.psi) ∧
    ∀ sh, shock = some sh →
      0 ≤ psiMultOf (resolvedBrandData specs .shock sh.brand) →
      ∃ r1 r2,
        (calculate_baseline specs ⟨⟨w1, bt, sk⟩, cond, fork, shock⟩).shock =
          some r1 ∧
        (calculate_baseline specs ⟨⟨w2, bt, sk⟩, cond, fork, shock⟩).shock =
          some r2 ∧
        0 ≤ r1.psi ∧ r1.psi ≤ r2.psi := by
  have h0 : (0 : ℚ) ≤ w1 := le_trans (by norm_num) (le_of_lt h1)
  have ht := psiPct_terrain_nonneg cond.terrain
  have hw := psiPct_weather_nonneg cond.weather
  constructor
  · exact finalPsi_nonneg_mono _ _ _ hm ht hw h0 h12
  · intro sh hsh hm2
    refine ⟨getComponentSettings specs w1 bt (terrainMod cond.terrain)
        (weatherMod cond.weather) sh .shock,
      getComponentSettings specs w2 bt (terrainMod cond.terrain)
        (weatherMod cond.weather) sh .shock, ?_, ?_, ?_, ?_⟩
    · simp [calculate_baseline, hsh]
    · simp [calculate_baseline, hsh]
    · exact (finalPsi_nonneg_mono _ _ _ hm2 ht hw h0 h12).1
    · exact (finalPsi_nonneg_mono _ _ _ hm2 ht hw h0 h12).2

/-- Witness for C5 at weights 70 and 80 on a concrete setup with a shock. -/
theorem psi_nonneg_monotone_witness :
    (0 ≤ (calculate_baseline exSpecs
        ⟨⟨70, .full_suspension_trail_enduro, "intermediate"⟩, exConditions,
          exFork, some exShock⟩).fork.psi ∧
      (calculate_baseline exSpecs
        ⟨⟨70, .full_suspension_trail_enduro, "intermediate"⟩, exConditions,
          exFork, some exShock⟩).fork.psi ≤
        (calculate_baseline exSpecs
          ⟨⟨80, .full_suspension_trail_enduro, "intermediate"⟩, exConditions,
            exFork, some exShock⟩).fork.psi) ∧
    ∀ sh, (some exShock : Option SuspensionComponent) = some sh →
      0 ≤ psiMultOf (resolvedBrandData exSpecs .shock sh.brand) →
      ∃ r1 r2,
        (calculate_baseline exSpecs
          ⟨⟨70, .full_suspension_trail_enduro, "intermediate"⟩, exConditions,
            exFork, some exShock⟩).shock = some r1 ∧
        (calculate_baseline exSpecs
          ⟨⟨80, .full_suspension_trail_enduro, "intermediate"⟩, exConditions,
            exFork, some exShock⟩).shock = some r2 ∧
        0 ≤ r1.psi ∧ r1.psi ≤ r2.psi :=
  psi_nonneg_monotone exSpecs .full_suspension_trail_enduro "intermediate"
    exConditions exFork (some exShock) 70 80 (by decide) (by norm_num)
    (by norm_num) (by norm_num)

theorem mem_pair_ite (b : Bool) (x kv : String × ℤ) :
    (kv ∈ if b = true then [x] else ([] : List (String × ℤ))) ↔
      (b = true ∧ kv = x) := by
  cases b <;> simp

theorem mem_buildClicks (comp : SuspensionComponent) (r l h lc hc : ℤ)
    (kv : String × ℤ) :
    kv ∈ buildClicks comp r l h lc hc ↔
      (comp.has_rebound = true ∧ kv = ("rebound", r)) ∨
      (comp.has_lsr = true ∧ kv = ("lsr", l)) ∨
      (comp.has_hsr = true ∧ kv = ("hsr", h)) ∨
      (comp.has_lsc = true ∧ kv = ("lsc", lc)) ∨
      (comp.has_hsc = true ∧ kv = ("hsc", hc)) := by
  simp only [buildClicks, List.mem_append, mem_pair_ite]
  tauto

theorem key_flag_buildClicks (comp : SuspensionComponent) (r l h lc hc : ℤ) :
    (("rebound" ∈ (buildClicks comp r l h lc hc).map Prod.fst) ↔
        comp.has_rebound = true) ∧
    (("lsr" ∈ (buildClicks comp r l h lc hc).map Prod.fst) ↔
        comp.has_lsr = true) ∧
    (("hsr" ∈ (buildClicks comp r l h lc hc).map Prod.fst) ↔
        comp.has_hsr = true) ∧
    (("lsc" ∈ (buildClicks comp r l h lc hc).map Prod.fst) ↔
        comp.has_lsc = true) ∧
    (("hsc" ∈ (buildClicks comp r l h lc hc).map Prod.fst) ↔
        comp.has_hsc = true) := by
  refine ⟨?_, ?_, ?_, ?_, ?_⟩ <;>
    simp [List.mem_map, mem_buildClicks]

/-- Claim C3: a recommendation's `clicks` mapping contains each click-type
key (rebound, lsr, hsr, lsc, hsc) if and only if the corresponding `has_*`
capability flag is true on that component, for the fork and for the shock
when present. -/
theorem clicks_keys_iff_flags (specs : Specs) (setup : BikeSetup) :
    ((("rebound" ∈ (calculate_baseline specs setup).fork.clicks.map Prod.fst) ↔
        setup.fork.has_rebound = true) ∧
      (("lsr" ∈ (calculate_baseline specs setup).fork.clicks.map Prod.fst) ↔
        setup.fork.has_lsr = true) ∧
      (("hsr" ∈ (calculate_baseline specs setup).fork.clicks.map Prod.fst) ↔
        setup.fork.has_hsr = true) ∧
      (("lsc" ∈ (calculate_baseline specs setup).fork.clicks.map Prod.fst) ↔
        setup.fork.has_lsc = true) ∧
      (("hsc" ∈ (calculate_baseline specs setup).fork.clicks.map Prod.fst) ↔
        setup.fork.has_hsc = true)) ∧
    ∀ s rec, setup.shock = some s →
      (calculate_baseline specs setup).shock = some rec →
      ((("rebound" ∈ rec.clicks.map Prod.fst) ↔ s.has_rebound = true) ∧
        (("lsr" ∈ rec.clicks.map Prod.fst) ↔ s.has_lsr = true) ∧
        (("hsr" ∈ rec.clicks.map Prod.fst) ↔ s.has_hsr = true) ∧
        (("lsc" ∈ rec.clicks.map Prod.fst) ↔ s.has_lsc = true) ∧
        (("hsc" ∈ rec.clicks.map Prod.fst) ↔ s.has_hsc = true)) := by
  constructor
  · exact key_flag_buildClicks setup.fork _ _ _ _ _
  · intro s rec hs hrec
    have h2 : (calculate_baseline specs setup).shock =
        some (getComponentSettings specs setup.rider.weight_kg
          setup.rider.bike_type (terrainMod setup.conditions.terrain)
          (weatherMod setup.conditions.weather) s .shock) := by
      simp [calculate_baseline, hs]
    rw [h2] at hrec
    cases hrec
    exact key_flag_buildClicks s _ _ _ _ _

/-- Witness for C3: the concrete full-suspension setup; its fork and shock
both have `has_lsc = true` and `has_hsr = false`. -/
theorem clicks_keys_iff_flags_witness :
    (("lsc" ∈ (calculate_baseline exSpecs exSetupFS).fork.clicks.map Prod.fst) ↔
      exSetupFS.fork.has_lsc = true) ∧
    ∀ s rec, exSetupFS.shock = some s →
      (calculate_baseline exSpecs exSetupFS).shock = some rec →
      (("hsr" ∈ rec.clicks.map Prod.fst) ↔ s.has_hsr = true) :=
  ⟨(clicks_keys_iff_flags exSpecs exSetupFS).1.2.2.2.1,
   fun s rec hs hrec =>
    ((clicks_keys_iff_flags exSpecs exSetupFS).2 s rec hs hrec).2.2.1⟩

theorem gcs_clicks_facts (specs : Specs) (w : ℚ) (bt : BikeType) (tm wm : Mod)
    (comp : SuspensionComponent) (ct : CompType) :
    (∀ kv ∈ (getComponentSettings specs w bt tm wm comp ct).clicks,
        0 ≤ kv.2) ∧
    (∀ v : ℤ,
        ("lsr", v) ∈ (getComponentSettings specs w bt tm wm comp ct).clicks →
        v = finalRebound (resolvedBrandData specs ct comp.brand) w tm wm) ∧
    (∀ v : ℤ,
        ("hsr", v) ∈ (getComponentSettings specs w bt tm wm comp ct).clicks →
        v = finalRebound (resolvedBrandData specs ct comp.brand) w tm wm + 1) := by
  have hfr : 0 ≤ finalRebound (resolvedBrandData specs ct comp.brand) w tm wm :=
    le_max_left 0 _
  have hclicks : (getComponentSettings specs w bt tm wm comp ct).clicks =
      buildClicks comp
        (finalRebound (resolvedBrandData specs ct comp.brand) w tm wm)
        (finalRebound (resolvedBrandData specs ct comp.brand) w tm wm)
        (max 0 (finalRebound (resolvedBrandData specs ct comp.brand) w tm wm + 1))
        (finalLsc (resolvedBrandData specs ct comp.brand) tm wm)
        (finalHsc (resolvedBrandData specs ct comp.brand) tm wm) := rfl
  have hhsr : max 0
      (finalRebound (resolvedBrandData specs ct comp.brand) w tm wm + 1) =
      finalRebound (resolvedBrandData specs ct comp.brand) w tm wm + 1 :=
    max_eq_right (by omega)
  refine ⟨?_, ?_, ?_⟩
  · intro kv hkv
    rw [hclicks] at hkv
    rcases (mem_buildClicks comp _ _ _ _ _ kv).mp hkv with
      ⟨_, rfl⟩ | ⟨_, rfl⟩ | ⟨_, rfl⟩ | ⟨_, rfl⟩ | ⟨_, rfl⟩
    · exact hfr
    · exact hfr
    · exact le_max_left 0 _
    · exact le_max_left 0 _
    · exact le_max_left 0 _
  · intro v hv
    rw [hclicks] at hv
    rcases (mem_buildClicks comp _ _ _ _ _ _).mp hv with
      ⟨_, h⟩ | ⟨_, h⟩ | ⟨_, h⟩ | ⟨_, h⟩ | ⟨_, h⟩ <;>
      simp only [Prod.mk.injEq] at h
    · exact absurd h.1 (by decide)
    · exact h.2
    · exact absurd h.1 (by decide)
    · exact absurd h.1 (by decide)
    · exact absurd h.1 (by decide)
  · intro v hv
    rw [hclicks] at hv
    rcases (mem_buildClicks comp _ _ _ _ _ _).mp hv with
      ⟨_, h⟩ | ⟨_, h⟩ | ⟨_, h⟩ | ⟨_, h⟩ | ⟨_, h⟩ <;>
      simp only [Prod.mk.injEq] at h
    · exact absurd h.1 (by decide)
    · exact absurd h.1 (by decide)
    · rw [h.2, hhsr]
    · exact absurd h.1 (by decide)
    · exact absurd h.1 (by decide)

/-- Claim C6: every click value emitted in a recommendation's `clicks`
mapping is non-negative (each is clamped at 0); the `lsr` value equals the
final rebound and the `hsr` value equals the final rebound plus one — for the
fork and for the shock when present. -/
theorem clicks_nonneg_and_mirrors (specs : Specs) (setup : BikeSetup) :
    (∀ kv ∈ (calculate_baseline specs setup).fork.clicks, 0 ≤ kv.2) ∧
    (∀ v : ℤ, ("lsr", v) ∈ (calculate_baseline specs setup).fork.clicks →
        v = finalRebound (resolvedBrandData specs .fork setup.fork.brand)
          setup.rider.weight_kg (terrainMod setup.conditions.terrain)
          (weatherMod setup.conditions.weather)) ∧
    (∀ v : ℤ, ("hsr", v) ∈ (calculate_baseline specs setup).fork.clicks →
        v = finalRebound (resolvedBrandData specs .fork setup.fork.brand)
          setup.rider.weight_kg (terrainMod setup.conditions.terrain)
          (weatherMod setup.conditions.weather) + 1) ∧
    ∀ s rec, setup.shock = some s →
      (calculate_baseline specs setup).shock = some rec →
      (∀ kv ∈ rec.clicks, 0 ≤ kv.2) ∧
      (∀ v : ℤ, ("lsr", v) ∈ rec.clicks →
          v = finalRebound (resolvedBrandData specs .shock s.brand)
            setup.rider.weight_kg (terrainMod setup.conditions.terrain)
            (weatherMod setup.conditions.weather)) ∧
      (∀ v : ℤ, ("hsr", v) ∈ rec.clicks →
          v = finalRebound (resolvedBrandData specs .shock s.brand)
            setup.rider.weight_kg (terrainMod setup.conditions.terrain)
            (weatherMod setup.conditions.weather) + 1) := by
  obtain ⟨ha, hb, hc⟩ := gcs_clicks_facts specs setup.rider.weight_kg
    setup.rider.bike_type (terrainMod setup.conditions.terrain)
    (weatherMod setup.conditions.weather) setup.fork .fork
  refine ⟨ha, hb, hc, ?_⟩
  intro s rec hs hrec
  have h2 : (calculate_baseline specs setup).shock =
      some (getComponentSettings specs setup.rider.weight_kg
        setup.rider.bike_type (terrainMod setup.conditions.terrain)
        (weatherMod setup.conditions.weather) s .shock) := by
    simp [calculate_baseline, hs]
  rw [h2] at hrec
  cases hrec
  exact gcs_clicks_facts specs setup.rider.weight_kg setup.rider.bike_type
    (terrainMod setup.conditions.terrain)
    (weatherMod setup.conditions.weather) s .shock

/-- Witness for C6: on the concrete full-suspension setup the fork emits
rebound 8, lsr 8 and hsr 9; the theorem is applied to those entries. -/
theorem clicks_nonneg_and_mirrors_witness :
    ((0 : ℤ) ≤ (("rebound", (8 : ℤ))).2) ∧
    ((8 : ℤ) = finalRebound (resolvedBrandData exSpecs .fork exSetupFS.fork.brand)
      exSetupFS.rider.weight_kg (terrainMod exSetupFS.conditions.terrain)
      (weatherMod exSetupFS.conditions.weather)) ∧
    ((9 : ℤ) = finalRebound (resolvedBrandData exSpecs .fork exSetupFS.fork.brand)
      exSetupFS.rider.weight_kg (terrainMod exSetupFS.conditions.terrain)
      (weatherMod exSetupFS.conditions.weather) + 1) := by
  refine ⟨?_, ?_, ?_⟩
  · exact (clicks_nonneg_and_mirrors exSpecs exSetupFS).1 ("rebound", 8)
      (by decide)
  · exact (clicks_nonneg_and_mirrors exSpecs exSetupFS).2.1 8 (by decide)
  · exact (clicks_nonneg_and_mirrors exSpecs exSetupFS).2.2.1 9 (by decide)

/-- Counterexample to C2 as stated: the symptom `s3` exists, its required
component (the fork) is present, and its only solution's `logic_check` is
`"brand"` — not `"always_true"` and not a capability flag, so the claimed
filter ("always_true or the named capability flag is present and true")
admits no solution and yields the no-solution outcome; the source instead
admits the solution through attribute truthiness and returns it as the
primary fix. -/
theorem diagnose_filter_counterexample :
    diagnose_problem exDb exSetupFS "s3" =
      .diagnosis "Brand check" ⟨"brand", 5, "x"⟩ none ∧
    diagnose_problem_claimed exDb exSetupFS "s3" = .noSolution ∧
    capabilityFlagValue exSetupFS.fork "brand" = none := by
  refine ⟨rfl, rfl, rfl⟩

/-- Claim C2 (amended): with the symptom found and its required component
present, the applying solutions (logic_check `always_true`, or the named
component attribute present and truthy) are stably sorted ascending by
priority — the result is a permutation of the filtered list, sorted by
`priority`, preserving the original order of equal priorities — and
`diagnose_problem` returns the top of that order as the primary fix and the
second element (if any) as the secondary fix, or the no-solution outcome when
nothing applies. -/
theorem diagnose_ranking (db : List Symptom) (setup : BikeSetup) (sid : String)
    (problem : Symptom) (comp : SuspensionComponent)
    (hfind : db.find? (fun item => item.symptom_id = sid) = some problem)
    (hcomp : (if problem.required_component = "fork" then some setup.fork
        else setup.shock) = some comp) :
    ∀ valid sorted : List Solution,
      valid = problem.solutions.filter (solutionApplies comp) →
      sorted = List.insertionSort lePriority valid →
      sorted.Perm valid ∧
      List.Sorted lePriority sorted ∧
      (∀ a b, List.Sublist [a, b] valid → lePriority a b →
          List.Sublist [a, b] sorted) ∧
      (∀ p rest, sorted = p :: rest →
          diagnose_problem db setup sid =
            .diagnosis problem.symptom_name p rest.head?) ∧
      (sorted = [] → diagnose_problem db setup sid = .noSolution) := by
  intro valid sorted hv hs
  subst hv
  subst hs
  have key : diagnose_problem db setup sid =
      match List.insertionSort lePriority
          (problem.solutions.filter (solutionApplies comp)) with
      | [] => DiagnoseResult.noSolution
      | p :: rest =>
          DiagnoseResult.diagnosis problem.symptom_name p rest.head? := by
    unfold diagnose_problem
    simp only [hfind, hcomp]
  refine ⟨List.perm_insertionSort lePriority _,
    List.sorted_insertionSort lePriority _, ?_, ?_, ?_⟩
  · intro a b hsub hle
    exact List.pair_sublist_insertionSort hle hsub
  · intro p rest hsr
    rw [key, hsr]
  · intro hsr
    rw [key, hsr]

/-- Witness for C2 (amended), which is also the claim's concrete example: on
the symptom `s1` whose solutions have priorities [3, 1, 2] and all
logic_checks `always_true`, the primary fix is the priority-1 solution and
the secondary fix is the priority-2 solution. -/
theorem diagnose_ranking_witness :
    diagnose_problem exDb exSetupFS "s1" =
      .diagnosis "Fork dive" ⟨"always_true", 1, "b"⟩
        (some ⟨"always_true", 2, "c"⟩) := by
  have h := diagnose_ranking exDb exSetupFS "s1"
    ⟨"s1", "Fork dive", "fork", exSolutions312⟩ exSetupFS.fork rfl rfl
  have h4 := (h _ _ rfl rfl).2.2.2.1
  exact h4 ⟨"always_true", 1, "b"⟩
    [⟨"always_true", 2, "c"⟩, ⟨"always_true", 3, "a"⟩] (by decide)

/-- Claim C10: in the resolver's filter, applicability is Python truthiness
of `getattr(component, logic_check, False)`, not only boolean capability
flags: `"brand"` is always truthy (a nonempty string), `"travel_mm"` is
truthy for any valid component, `"current_psi"` is truthy exactly when set
and nonzero, and a name that is no attribute of the component is false. -/
theorem logic_check_attr_truthiness (comp : SuspensionComponent) (s : Solution)
    (hv : comp.validTravel) :
    (s.logic_check = "brand" → solutionApplies comp s = true) ∧
    (s.logic_check = "travel_mm" → solutionApplies comp s = true) ∧
    (∀ n : ℤ, s.logic_check = "current_psi" → comp.current_psi = some n →
        n ≠ 0 → solutionApplies comp s = true) ∧
    (s.logic_check = "current_psi" → comp.current_psi = none →
        solutionApplies comp s = false) ∧
    (s.logic_check ∉ (["always_true", "brand", "travel_mm", "has_air_spring",
        "has_rebound", "has_lsc", "has_hsc", "has_lsr", "has_hsr",
        "tokens_adjustable", "current_psi"] : List String) →
        solutionApplies comp s = false) := by
  obtain ⟨ht, _⟩ := hv
  refine ⟨?_, ?_, ?_, ?_, ?_⟩
  · intro h
    simp only [solutionApplies, getattrTruthy, h]
    cases comp.brand <;> simp [Brand.str]
  · intro h
    have hne : comp.travel_mm ≠ 0 := by omega
    simp [solutionApplies, getattrTruthy, h, hne]
  · intro n h hc hn
    simp [solutionApplies, getattrTruthy, h, hc, hn]
  · intro h hc
    simp [solutionApplies, getattrTruthy, h, hc]
  · intro h
    simp only [List.mem_cons, List.mem_singleton, not_or] at h
    obtain ⟨h1, h2, h3, h4, h5, h6, h7, h8, h9, h10, h11, -⟩ := h
    simp [solutionApplies, getattrTruthy, h1, h2, h3, h4, h5, h6, h7, h8,
      h9, h10, h11]

/-- Witness for C10 on a concrete shock: `"brand"` applies, a set nonzero
`"current_psi"` applies, an unknown attribute name does not. -/
theorem logic_check_attr_truthiness_witness :
    solutionApplies exShock ⟨"brand", 5, "x"⟩ = true ∧
    solutionApplies exShock ⟨"current_psi", 1, "y"⟩ = true ∧
    solutionApplies exShock ⟨"damper_model", 1, "z"⟩ = false := by
  refine ⟨?_, ?_, ?_⟩
  · exact (logic_check_attr_truthiness exShock ⟨"brand", 5, "x"⟩
      (by decide)).1 rfl
  · exact (logic_check_attr_truthiness exShock ⟨"current_psi", 1, "y"⟩
      (by decide)).2.2.1 180 rfl rfl (by decide)
  · exact (logic_check_attr_truthiness exShock ⟨"damper_model", 1, "z"⟩
      (by decide)).2.2.2.2 (by decide)

end MTB
